import Mathlib

/-!
Verification of the Aidanna story-learning backend (`src/main.py`) against its
natural-language specification. The Python service is shallowly embedded:
pure helpers (`build_system_prompt`, `build_user_message`) become Lean
functions, the FastAPI endpoint handlers become functions from a parsed
request plus an abstract upstream outcome to an HTTP response value, and the
SSE generator becomes a function from the sequence of upstream chunks to the
list of emitted frames.
-/

namespace Aidanna

/-- Python truthiness for an `Optional[str]` value: `None` and `""` are falsy. -/
def pyTruthyStr : Option String → Bool
  | none => false
  | some s => s ≠ ""

/-- Python truthiness for an `Optional[int]` value: `None` and `0` are falsy. -/
def pyTruthyInt : Option Int → Bool
  | none => false
  | some n => n ≠ 0

/-- main.py lines 16-18: `OPENAI_KEY = os.getenv("OPENAI_API_KEY")` followed by
`if not OPENAI_KEY: raise RuntimeError(...)`. The environment variable is an
`Option String` (`none` when unset); module import either raises (error) or
yields the configured key. -/
def startup (openai_api_key : Option String) : Except String String :=
  if pyTruthyStr openai_api_key then
    Except.ok (openai_api_key.getD "")
  else
    Except.error "OPENAI_API_KEY is missing. Set it in environment or .env"

/-- A default value in a mode definition (`defaults` dict values are strings or ints). -/
inductive DefaultValue where
  | str (s : String)
  | int (n : Int)
deriving DecidableEq

/-- Metadata of one mode, main.py lines 24-45. -/
structure ModeDef where
  label : String
  description : String
  defaults : List (String × DefaultValue)
deriving DecidableEq

/-- main.py lines 24-45: `MODE_DEFINITIONS`, the mode registry exposed by `/modes`. -/
def MODE_DEFINITIONS : List (String × ModeDef) :=
  [ ("narrative",
      { label := "Narrative"
        description := "Single storyline with characters and scenes to teach concepts via story"
        defaults := [("tone", .str "warm, encouraging"), ("length", .str "medium")] })
  , ("dialogue",
      { label := "Dialogue"
        description := "A conversational play between characters exploring a topic"
        defaults := [("tone", .str "curious, probing"), ("characters", .int 2)] })
  , ("case-study",
      { label := "Case Study"
        description := "Real-world scenario breakdown with root cause analysis and outcomes"
        defaults := [("tone", .str "analytic"), ("depth", .str "detailed")] })
  , ("interactive",
      { label := "Interactive"
        description := "Choose-your-own-adventure style simulation where choices affect outcomes"
        defaults := [("tone", .str "engaging"), ("choices", .int 3)] })
  ]

/-- The mode identifiers, in definition order. -/
def modeKeys : List String := MODE_DEFINITIONS.map Prod.fst

/-- Python dict membership test `mode in MODE_DEFINITIONS`. -/
def isKnownMode (mode : String) : Bool := modeKeys.contains mode

/-- The validated `Personalization` record, main.py lines 48-55. Integer fields
are kept as `Int` (Python ints). -/
structure Personalization where
  title : Option String := none
  tone : Option String := none
  characters : Option Int := none
  setting : Option String := none
  length : Option String := none
  choices : Option Int := none
  extra_instructions : Option String := none
deriving DecidableEq

/-- The base-template dict literal inside `build_system_prompt`, main.py lines 73-91.
`.get(mode, "")` yields `""` for an unknown mode. -/
def baseFor (mode : String) : String :=
  if mode = "narrative" then
    "You are Aidanna, a warm and enthusiastic learning companion who transforms topics into captivating narrative stories. Create clear story arcs, relatable characters, and embed the learning goal so the reader learns while entertained."
  else if mode = "dialogue" then
    "You are Aidanna, a creative learning companion who teaches through dialogue. Create natural, educational conversations between characters that progressively uncover the topic."
  else if mode = "case-study" then
    "You are Aidanna, an insightful learning companion. Produce a real-world case study: context, problem statement, analysis, decisions, and outcomes with practical takeaways."
  else if mode = "interactive" then
    "You are Aidanna, an interactive learning companion. Present a scenario with clear choices, and for each choice, describe consequences and learning points. Allow users to make decisions."
  else ""

/-- The fixed closing sentence appended at main.py line 108. -/
def closingSentence : String :=
  "Be concise but clear. Use examples and explicit learning takeaways."

/-- Python `" ".join(parts)`. -/
def joinSpace : List String → String
  | [] => ""
  | [s] => s
  | s :: rest => s ++ " " ++ joinSpace rest

/-- main.py lines 72-109: `build_system_prompt(mode, personalization)`. The
`parts` list is built exactly as in the source (base, then one clause per
truthy personalization field in source order, then the closing sentence) and
joined with single spaces. -/
def build_system_prompt (mode : String) (personalization : Option Personalization) : String :=
  let base := baseFor mode
  let parts : List String := [base]
  let parts : List String :=
    match personalization with
    | none => parts
    | some p =>
      let parts := if pyTruthyStr p.tone then
        parts ++ ["Tone: " ++ p.tone.getD "" ++ "."] else parts
      let parts := if pyTruthyStr p.setting then
        parts ++ ["Setting: " ++ p.setting.getD "" ++ "."] else parts
      let parts := if pyTruthyInt p.characters then
        parts ++ ["Use approximately " ++ toString (p.characters.getD 0) ++ " characters."] else parts
      let parts := if pyTruthyStr p.length then
        parts ++ ["Target length: " ++ p.length.getD "" ++ "."] else parts
      let parts := if pyTruthyInt p.choices then
        parts ++ ["Interactive choices: " ++ toString (p.choices.getD 0) ++ "."] else parts
      let parts := if pyTruthyStr p.extra_instructions then
        parts ++ ["Extra: " ++ p.extra_instructions.getD ""] else parts
      parts
  let parts := parts ++ [closingSentence]
  joinSpace parts

/-- main.py lines 111-114: `build_user_message(prompt)`; a missing, empty or
whitespace-only prompt is replaced by the fixed default message. -/
def build_user_message (prompt : Option String) : List (String × String) :=
  match prompt with
  | none => [("user", "Please teach me something interesting in an engaging way.")]
  | some s =>
    if s = "" ∨ s.trim = "" then
      [("user", "Please teach me something interesting in an engaging way.")]
    else [("user", s)]

/-! ### Streaming normalization (main.py lines 193-232) -/

/-- The shape of one upstream incremental event, abstracting the defensive
extraction at main.py lines 201-209 / 215-222: the normalizer first tries
`chunk.choices[0].delta.get("content", "")` (a delta dict that may lack the
`content` key), then `chunk.choices[0].message.content`, then `str(chunk)`. -/
inductive ChunkShape where
  | deltaContent (content : Option String)
  | messageContent (content : String)
  | raw (stringified : String)
deriving DecidableEq

/-- The normalized text fragment extracted from one upstream event. -/
def extractPiece : ChunkShape → String
  | .deltaContent c => c.getD ""
  | .messageContent c => c
  | .raw s => s

/-- How the upstream iteration ends: normal completion, or an exception
raised (before, between or after chunk deliveries). The chunks listed in a
stream are exactly those yielded before the outcome occurs. -/
inductive StreamOutcome where
  | completed
  | errored (msg : String)
deriving DecidableEq

/-- One SSE frame, the JSON payload of one `data: <json>\n\n` line:
`{"delta": s}`, `{"done": true}` or `{"error": msg}`. -/
inductive Frame where
  | delta (s : String)
  | done
  | error (msg : String)
deriving DecidableEq

/-- The delta frames emitted by the loop body for a list of upstream chunks:
one `{delta}` frame per chunk whose normalized piece is truthy (non-empty),
in arrival order (main.py lines 198-226). -/
def deltaFrames : List ChunkShape → List Frame
  | [] => []
  | c :: rest =>
    (if extractPiece c ≠ "" then [Frame.delta (extractPiece c)] else []) ++ deltaFrames rest

/-- main.py lines 193-232: `event_generator`. The upstream yields `chunks`
and then `outcome` happens; on normal completion one `{done: true}` frame
follows the deltas (line 228), on an exception the `except` clause emits one
`{error}` frame and the generator ends (lines 231-232). -/
def event_generator (chunks : List ChunkShape) (outcome : StreamOutcome) : List Frame :=
  deltaFrames chunks ++
    match outcome with
    | .completed => [Frame.done]
    | .errored e => [Frame.error e]

/-! ### Request validation and the endpoint handlers -/

/-- The raw `personalization` object of an inbound JSON body, before pydantic
validation. Numeric values are exact (`Int`); string fields are free-form. -/
structure RawPersonalization where
  title : Option String := none
  tone : Option String := none
  characters : Option Int := none
  setting : Option String := none
  length : Option String := none
  choices : Option Int := none
  extra_instructions : Option String := none
deriving DecidableEq

/-- The parsed JSON body of a `/generate` or `/stream` request, before
validation. `temperature` is modelled exactly as a rational. -/
structure RawGenerateRequest where
  user_id : Option String := none
  mode : Option String := none
  prompt : Option String := none
  personalization : Option RawPersonalization := none
  temperature : Option ℚ := none
  max_tokens : Option Int := none
deriving DecidableEq

/-- An optional `Int` field is in range when absent or between the bounds. -/
def intInRange (lo hi : Int) : Option Int → Bool
  | none => true
  | some n => decide (lo ≤ n ∧ n ≤ hi)

/-- An optional rational field is in range when absent or between the bounds. -/
def ratInRange (lo hi : ℚ) : Option ℚ → Bool
  | none => true
  | some t => decide (lo ≤ t ∧ t ≤ hi)

/-- Pydantic validation of the `Personalization` model (main.py lines 48-55):
`characters` is `conint(ge=1, le=10)`, `choices` is `conint(ge=1, le=6)`;
out-of-range values raise a `ValidationError`. -/
def validatePersonalization (p : RawPersonalization) : Except Unit Personalization :=
  if intInRange 1 10 p.characters ∧ intInRange 1 6 p.choices then
    Except.ok
      { title := p.title, tone := p.tone, characters := p.characters,
        setting := p.setting, length := p.length, choices := p.choices,
        extra_instructions := p.extra_instructions }
  else Except.error ()

/-- The validated `GenerateRequest` (main.py lines 57-63) after pydantic has
applied defaults (`temperature` 0.8, `max_tokens` 800). -/
structure GenerateRequest where
  user_id : Option String := none
  mode : String
  prompt : Option String := none
  personalization : Option Personalization := none
  temperature : ℚ := 4/5
  max_tokens : Int := 800
deriving DecidableEq

/-- FastAPI body validation of `GenerateRequest` (main.py lines 57-63 plus the
framework's behavior): `mode` is required, `temperature` must lie in
[0.0, 2.0], `max_tokens` in [64, 2000], and the nested `Personalization`
constraints must hold; any violation yields a 422 request-validation error
before the handler body runs. -/
def validateGenerateRequest (raw : RawGenerateRequest) : Except Unit GenerateRequest :=
  match raw.mode with
  | none => Except.error ()
  | some m =>
    if ratInRange 0 2 raw.temperature ∧ intInRange 64 2000 raw.max_tokens then
      match raw.personalization with
      | none =>
        Except.ok
          { user_id := raw.user_id, mode := m, prompt := raw.prompt,
            personalization := none,
            temperature := raw.temperature.getD (4/5),
            max_tokens := raw.max_tokens.getD 800 }
      | some rp =>
        match validatePersonalization rp with
        | Except.error () => Except.error ()
        | Except.ok p =>
          Except.ok
            { user_id := raw.user_id, mode := m, prompt := raw.prompt,
              personalization := some p,
              temperature := raw.temperature.getD (4/5),
              max_tokens := raw.max_tokens.getD 800 }
    else Except.error ()

/-- The body of an HTTP response produced by the service. -/
inductive ResponseBody where
  /-- `{detail: message}`, as rendered for an `HTTPException`. -/
  | detail (msg : String)
  /-- The 422 body FastAPI renders for a request-validation failure
  (`detail` holds a list of error records, not a single message). -/
  | validationErrors
  /-- A successful `/generate` body `{id, mode, content, metadata}`. -/
  | result (id : String) (mode : String) (content : String)
  /-- The `/health` body `{status: "ok", has_upstream_configured: b}`. -/
  | health (has_upstream_configured : Bool)
  /-- The `/modes` body: the mode registry mapping. -/
  | modes (defs : List (String × ModeDef))
  /-- An SSE stream (`text/event-stream`) of frames. -/
  | sse (frames : List Frame)
  /-- The plain-text body FastAPI renders for an unhandled handler exception. -/
  | internalError
  /-- An empty body (preflight answer). -/
  | empty
deriving DecidableEq

/-- An HTTP response: status code, body, and response headers. -/
structure HttpResponse where
  status : Nat
  body : ResponseBody
  headers : List (String × String) := []
deriving DecidableEq

/-- The arguments of one `client.chat.completions.create` call
(main.py lines 138-143 and 183-189). -/
structure UpstreamCall where
  system_prompt : String
  user_messages : List (String × String)
  temperature : ℚ
  max_tokens : Int
  streaming : Bool
deriving DecidableEq

/-- The outcome of the unary upstream call, supplied as an abstract
environment parameter: either a completion (with its optional id and the
assistant content) or a raised exception message. -/
inductive UpstreamResult where
  | success (id : Option String) (content : String)
  | failure (msg : String)
deriving DecidableEq

/-- main.py lines 118-121: `GET /modes` returns `MODE_DEFINITIONS` verbatim. -/
def get_modes : HttpResponse :=
  { status := 200, body := .modes MODE_DEFINITIONS }

/-- main.py lines 123-156: the `POST /generate` handler. `upstream` is the
outcome of the (single, optional) `client.chat.completions.create` call and
`fallback_id` stands for `str(time.time())`, used when the completion lacks
an id. The second component records the upstream call that was issued
(`none` when the gateway was never reached). -/
def generate (raw : RawGenerateRequest) (upstream : UpstreamResult)
    (fallback_id : String) : HttpResponse × Option UpstreamCall :=
  match validateGenerateRequest raw with
  | Except.error () => ({ status := 422, body := .validationErrors }, none)
  | Except.ok req =>
    if isKnownMode req.mode then
      let call : UpstreamCall :=
        { system_prompt := build_system_prompt req.mode req.personalization
          user_messages := build_user_message req.prompt
          temperature := req.temperature
          max_tokens := req.max_tokens
          streaming := false }
      match upstream with
      | .success id content =>
        ({ status := 200, body := .result (id.getD fallback_id) req.mode content }, some call)
      | .failure msg =>
        ({ status := 500, body := .detail msg }, some call)
    else
      ({ status := 400, body := .detail "Unsupported mode" }, none)

/-- The "basic validation" mode check of main.py lines 167-168:
`body.get("mode")` must be a key of `MODE_DEFINITIONS` (a missing mode is
`None`, which is not a key). -/
def streamModeOk (body : RawGenerateRequest) : Bool :=
  match body.mode with
  | some m => isKnownMode m
  | none => false

/-- The `Personalization(**(personalization or {})) if personalization else None`
expression at main.py line 176: absent personalization stays `None`; a present
one is validated by pydantic (an `Except.error` is the raised
`ValidationError`). -/
def streamPersonalization (body : RawGenerateRequest) : Except Unit (Option Personalization) :=
  match body.personalization with
  | none => Except.ok none
  | some rp => (validatePersonalization rp).map some

/-- main.py lines 158-234: the `POST /stream` handler. The handler reads the
raw JSON body and performs only "basic validation": the mode-membership check
(line 168, HTTP 400) and the pydantic construction `Personalization(**p)`
(line 176, whose failure escapes the handler as an unhandled exception,
rendered as a plain 500); `temperature` and `max_tokens` are taken with
defaults and no range check (lines 173-174). `createResult` is the outcome
of the streaming `client.chat.completions.create` call: an exception
message, or the upstream chunk sequence with its termination outcome. -/
def stream_generate (body : RawGenerateRequest)
    (createResult : Except String (List ChunkShape × StreamOutcome)) :
    HttpResponse × Option UpstreamCall :=
  if streamModeOk body = false then
    ({ status := 400, body := .detail "Unsupported mode" }, none)
  else
    let m := body.mode.getD ""
    let temperature := body.temperature.getD (4/5)
    let max_tokens := body.max_tokens.getD 800
    match streamPersonalization body with
    | Except.error () => ({ status := 500, body := .internalError }, none)
    | Except.ok pers =>
      let call : UpstreamCall :=
        { system_prompt := build_system_prompt m pers
          user_messages := build_user_message body.prompt
          temperature := temperature
          max_tokens := max_tokens
          streaming := true }
      match createResult with
      | Except.error e =>
        ({ status := 500, body := .detail ("OpenAI error: " ++ e) }, some call)
      | Except.ok (chunks, outcome) =>
        ({ status := 200, body := .sse (event_generator chunks outcome) }, some call)

/-! ### Parts of the service present only in other revisions of this
repository (modelled from the spec) -/

/-- Modelled from the spec: the Completion Gateway's "disabled" boot state
(§4.4, §9) is not implemented in src/main.py (which raises at import time
instead); the spec's gateway is `Configured` (with some availability of the
upstream provider) or `Disabled` when the credential is absent. -/
inductive GatewayState where
  | configured (upstreamAvailable : Bool)
  | disabled
deriving DecidableEq

/-- Whether an upstream credential is configured in a gateway state. -/
def hasUpstreamConfigured : GatewayState → Bool
  | .configured _ => true
  | .disabled => false

/-- Modelled from the spec: the `GET /health` route is absent from
src/main.py (it exists only in other revisions of this service); per spec §6
it returns `{status: "ok", has_upstream_configured: bool}` with status 200
always, never depending on upstream availability. -/
def health_endpoint (g : GatewayState) : HttpResponse :=
  { status := 200, body := .health (hasUpstreamConfigured g) }

/-- Modelled from the spec: cross-origin headers (§6) are absent from
src/main.py (configured only in other revisions); every response carries
`Access-Control-Allow-Origin`, `-Methods` (`GET,POST,OPTIONS`) and
`-Headers`. -/
def corsHeaders : List (String × String) :=
  [ ("Access-Control-Allow-Origin", "*")
  , ("Access-Control-Allow-Methods", "GET,POST,OPTIONS")
  , ("Access-Control-Allow-Headers", "*") ]

/-- An inbound HTTP request as seen by the cross-origin layer. -/
structure HttpRequest where
  method : String
  path : String
deriving DecidableEq

/-- Modelled from the spec: the cross-origin middleware (§6) is absent from
src/main.py; it answers preflight `OPTIONS` requests directly (the route
handler — the business logic — is never invoked) and attaches the
cross-origin headers to every other response, success or error. -/
def withCors (handler : HttpRequest → HttpResponse) (req : HttpRequest) : HttpResponse :=
  if req.method = "OPTIONS" then
    { status := 200, body := .empty, headers := corsHeaders }
  else
    let r := handler req
    { r with headers := r.headers ++ corsHeaders }

/-- The number of positions (over the character list of a string) at which
`pat` occurs as a contiguous substring. -/
def countOcc (pat : List Char) : List Char → Nat
  | [] => if pat.isPrefixOf ([] : List Char) then 1 else 0
  | c :: rest => (if pat.isPrefixOf (c :: rest) then 1 else 0) + countOcc pat rest

/-- A clause of the compiled system prompt: when its field is truthy the
clause text is preceded by the joining space, otherwise nothing is added. -/
def optClause (b : Bool) (clause : String) : String :=
  if b then " " ++ clause else ""

/-! ## Theorems -/

/-- C1 counterexample: with no upstream credential in the environment,
module initialization (main.py lines 16-18) raises
`RuntimeError("OPENAI_API_KEY is missing. ...")` — the process does not
start, contradicting the claim that startup does not throw and the service
still serves `/health` and `/modes`. -/
theorem startup_missing_key_raises :
    startup none =
      Except.error "OPENAI_API_KEY is missing. Set it in environment or .env" ∧
    (startup none).isOk = false :=
  ⟨rfl, rfl⟩

/-- C1 (amended): if the upstream API credential is absent (or empty) at
startup, process initialization raises a RuntimeError and the process does
not start — no endpoint is served and no gateway call can occur; startup
succeeds exactly when a non-empty credential is present. -/
theorem startup_requires_key (k : Option String) :
    (pyTruthyStr k = false →
      startup k = Except.error "OPENAI_API_KEY is missing. Set it in environment or .env") ∧
    (pyTruthyStr k = true → startup k = Except.ok (k.getD "")) := by
  constructor <;> intro h <;> simp [startup, h]

/-- Witness for `startup_requires_key` at the missing-key and configured-key
environments. -/
theorem startup_requires_key_witness :
    startup none =
      Except.error "OPENAI_API_KEY is missing. Set it in environment or .env" ∧
    startup (some "sk-test") = Except.ok "sk-test" :=
  ⟨(startup_requires_key none).1 (by decide),
   (startup_requires_key (some "sk-test")).2 (by decide)⟩

/-- C2: `GET /health` answers 200 with `{status: "ok",
has_upstream_configured: bool}` for every gateway state; the response is
independent of upstream availability. -/
theorem health_always_ok (g : GatewayState) :
    (health_endpoint g).status = 200 ∧
    (health_endpoint g).body = ResponseBody.health (hasUpstreamConfigured g) ∧
    health_endpoint (GatewayState.configured true) =
      health_endpoint (GatewayState.configured false) :=
  ⟨rfl, rfl, rfl⟩

/-- C3: every response — produced by any handler, on any request — carries
the three cross-origin headers (with `GET,POST,OPTIONS` as the allowed
methods), and a preflight `OPTIONS` request is answered identically for
every handler, i.e. without invoking business logic. -/
theorem cors_on_every_response (handler : HttpRequest → HttpResponse) (req : HttpRequest) :
    ("Access-Control-Allow-Origin", "*") ∈ (withCors handler req).headers ∧
    ("Access-Control-Allow-Methods", "GET,POST,OPTIONS") ∈ (withCors handler req).headers ∧
    ("Access-Control-Allow-Headers", "*") ∈ (withCors handler req).headers ∧
    (req.method = "OPTIONS" →
      ∀ otherHandler, withCors handler req = withCors otherHandler req) := by
  unfold withCors
  by_cases h : req.method = "OPTIONS" <;> simp [h, corsHeaders]

/-- Witness for `cors_on_every_response` on a concrete preflight request. -/
theorem cors_on_every_response_witness :
    ("Access-Control-Allow-Origin", "*") ∈
      (withCors (fun _ => health_endpoint GatewayState.disabled)
        ⟨"OPTIONS", "/generate"⟩).headers ∧
    withCors (fun _ => health_endpoint GatewayState.disabled) ⟨"OPTIONS", "/generate"⟩ =
      withCors (fun _ => get_modes) ⟨"OPTIONS", "/generate"⟩ := by
  have h := cors_on_every_response
    (fun _ => health_endpoint GatewayState.disabled) ⟨"OPTIONS", "/generate"⟩
  exact ⟨h.1, h.2.2.2 rfl _⟩

/-- C4 counterexample: a `/stream` body with `temperature = 3` (outside
[0.0, 2.0]) is not rejected: the handler enters SSE mode (status 200, SSE
body) and issues the upstream call with the out-of-range temperature. -/
theorem stream_accepts_out_of_range_temperature :
    stream_generate
      { mode := some "narrative", temperature := some 3 }
      (Except.ok ([ChunkShape.deltaContent (some "Hi")], StreamOutcome.completed)) =
      ({ status := 200, body := ResponseBody.sse [Frame.delta "Hi", Frame.done] },
       some { system_prompt := build_system_prompt "narrative" none
              user_messages := build_user_message none
              temperature := 3
              max_tokens := 800
              streaming := true }) ∧
    (stream_generate
      { mode := some "narrative", temperature := some 3 }
      (Except.ok ([ChunkShape.deltaContent (some "Hi")], StreamOutcome.completed))).1.status ≠ 400 :=
  ⟨rfl, by decide⟩

/-- C4 (amended): before any SSE stream starts, `POST /stream` rejects only
an unsupported (or missing) mode, with a 400 JSON error, and an out-of-range
`personalization.characters` or `personalization.choices`, with a 500
response raised by the `Personalization` model; `temperature` and
`max_tokens` are not range-checked — whatever values the body carries (with
defaults 0.8 and 800) are forwarded to the upstream call. -/
theorem stream_validation_behavior (body : RawGenerateRequest)
    (res : Except String (List ChunkShape × StreamOutcome)) :
    (streamModeOk body = false →
      stream_generate body res =
        ({ status := 400, body := ResponseBody.detail "Unsupported mode" }, none)) ∧
    (streamModeOk body = true → streamPersonalization body = Except.error () →
      stream_generate body res = ({ status := 500, body := ResponseBody.internalError }, none)) ∧
    (∀ call, (stream_generate body res).2 = some call →
      call.temperature = body.temperature.getD (4/5) ∧
      call.max_tokens = body.max_tokens.getD 800) := by
  refine ⟨fun h => by simp [stream_generate, h], fun h1 h2 => by simp [stream_generate, h1, h2], ?_⟩
  intro call hc
  by_cases h : streamModeOk body = false
  · simp [stream_generate, h] at hc
  · simp only [stream_generate, h, if_neg] at hc
    cases hp : streamPersonalization body with
    | error u => cases u; simp [hp] at hc
    | ok pers =>
      cases res with
      | error e =>
        simp [hp] at hc
        cases hc
        exact ⟨rfl, rfl⟩
      | ok pr =>
        simp [hp] at hc
        cases hc
        exact ⟨rfl, rfl⟩

/-- Witness for `stream_validation_behavior`: an unknown mode is answered
400 before streaming, and an out-of-range `personalization.characters` is
answered 500 before streaming. -/
theorem stream_validation_behavior_witness :
    stream_generate { mode := some "poetry" } (Except.error "down") =
      ({ status := 400, body := ResponseBody.detail "Unsupported mode" }, none) ∧
    stream_generate
      { mode := some "dialogue", personalization := some { characters := some 11 } }
      (Except.error "down") =
      ({ status := 500, body := ResponseBody.internalError }, none) :=
  ⟨(stream_validation_behavior _ _).1 (by rfl),
   (stream_validation_behavior _ _).2.1 (by rfl) (by rfl)⟩

/-- C5 counterexample: a `/generate` body with `temperature = 3` (outside
[0.0, 2.0]) is rejected by FastAPI's request validation with status 422 —
not 400 as the claim states — and the gateway is not called. -/
theorem generate_out_of_range_returns_422 :
    generate { mode := some "narrative", temperature := some 3 }
        (UpstreamResult.failure "unreachable") "fallback-id" =
      ({ status := 422, body := ResponseBody.validationErrors }, none) ∧
    (generate { mode := some "narrative", temperature := some 3 }
        (UpstreamResult.failure "unreachable") "fallback-id").1.status ≠ 400 :=
  ⟨rfl, by decide⟩

/-- C5 (amended): a `/generate` request with an unsupported mode is answered
with HTTP 400 and body `{detail: "Unsupported mode"}` and the gateway is
never called; a field outside its declared numeric range is rejected by the
schema validation with HTTP 422 (whose `detail` holds a list of error
records, not a single message) and the gateway is never called; the gateway
is only ever called after validation and the mode check both pass. -/
theorem generate_error_paths (raw : RawGenerateRequest) (up : UpstreamResult) (fid : String) :
    (validateGenerateRequest raw = Except.error () →
      generate raw up fid = ({ status := 422, body := ResponseBody.validationErrors }, none)) ∧
    (∀ req, validateGenerateRequest raw = Except.ok req → isKnownMode req.mode = false →
      generate raw up fid =
        ({ status := 400, body := ResponseBody.detail "Unsupported mode" }, none)) ∧
    (∀ call, (generate raw up fid).2 = some call →
      ∃ req, validateGenerateRequest raw = Except.ok req ∧ isKnownMode req.mode = true) := by
  refine ⟨fun h => by simp [generate, h], fun req h1 h2 => by simp [generate, h1, h2], ?_⟩
  intro call hc
  cases hv : validateGenerateRequest raw with
  | error u => cases u; simp [generate, hv] at hc
  | ok req =>
    by_cases hm : isKnownMode req.mode
    · exact ⟨req, rfl, hm⟩
    · simp [generate, hv, hm] at hc

/-- Witness for `generate_error_paths`: an out-of-range `max_tokens` is
answered 422 with the gateway unreached, and an unknown mode is answered 400
with the gateway unreached. -/
theorem generate_error_paths_witness :
    generate { mode := some "narrative", max_tokens := some 9000 }
        (UpstreamResult.failure "f") "t" =
      ({ status := 422, body := ResponseBody.validationErrors }, none) ∧
    generate { mode := some "poetry" } (UpstreamResult.failure "f") "t" =
      ({ status := 400, body := ResponseBody.detail "Unsupported mode" }, none) :=
  ⟨(generate_error_paths _ _ _).1 (by rfl),
   (generate_error_paths _ _ _).2.1 { mode := "poetry" } (by rfl) (by rfl)⟩

/-- Every frame emitted by the streaming loop body is a delta frame. -/
theorem mem_deltaFrames {f : Frame} :
    ∀ {chunks : List ChunkShape}, f ∈ deltaFrames chunks → ∃ s, f = Frame.delta s := by
  intro chunks
  induction chunks with
  | nil => intro h; simp [deltaFrames] at h
  | cons c rest ih =>
    intro h
    simp only [deltaFrames] at h
    rcases List.mem_append.mp h with h1 | h2
    · by_cases hp : extractPiece c ≠ ""
      · simp [hp] at h1; exact ⟨extractPiece c, h1⟩
      · simp [hp] at h1
    · exact ih h2

/-- The loop body emits exactly the truthy normalized pieces, in arrival
order, wrapped as delta frames. -/
theorem deltaFrames_eq (chunks : List ChunkShape) :
    deltaFrames chunks =
      ((chunks.map extractPiece).filter (fun s => s ≠ "")).map Frame.delta := by
  induction chunks with
  | nil => rfl
  | cons c rest ih =>
    simp only [deltaFrames, List.map_cons, List.filter_cons]
    by_cases hp : extractPiece c ≠ "" <;> simp [hp, ih]

/-- C6: when the upstream iteration raises after delivering some fragments,
the emitted frames are exactly the already-emitted delta frames followed by
one `{error}` frame: no `{done: true}` frame is emitted, the error frame
occurs exactly once, and nothing follows it. -/
theorem stream_error_after_fragments (chunks : List ChunkShape) (e : String)
    (_h : deltaFrames chunks ≠ []) :
    event_generator chunks (StreamOutcome.errored e) =
      deltaFrames chunks ++ [Frame.error e] ∧
    Frame.done ∉ event_generator chunks (StreamOutcome.errored e) ∧
    (event_generator chunks (StreamOutcome.errored e)).count (Frame.error e) = 1 ∧
    (event_generator chunks (StreamOutcome.errored e)).getLast? = some (Frame.error e) := by
  refine ⟨rfl, ?_, ?_, ?_⟩
  · intro hmem
    rcases List.mem_append.mp hmem with h1 | h2
    · obtain ⟨s, hs⟩ := mem_deltaFrames h1
      exact Frame.noConfusion hs
    · simp at h2
  · rw [show event_generator chunks (StreamOutcome.errored e) =
        deltaFrames chunks ++ [Frame.error e] from rfl, List.count_append]
    have h0 : (deltaFrames chunks).count (Frame.error e) = 0 := by
      rw [List.count_eq_zero]
      intro hmem
      obtain ⟨s, hs⟩ := mem_deltaFrames hmem
      exact Frame.noConfusion hs
    simp [h0]
  · rw [show event_generator chunks (StreamOutcome.errored e) =
        deltaFrames chunks ++ [Frame.error e] from rfl]
    simp

/-- Witness for `stream_error_after_fragments`: one delivered fragment, then
an upstream failure. -/
theorem stream_error_after_fragments_witness :
    deltaFrames [ChunkShape.deltaContent (some "Hello")] ≠ [] ∧
    event_generator [ChunkShape.deltaContent (some "Hello")] (StreamOutcome.errored "boom") =
      deltaFrames [ChunkShape.deltaContent (some "Hello")] ++ [Frame.error "boom"] ∧
    Frame.done ∉
      event_generator [ChunkShape.deltaContent (some "Hello")] (StreamOutcome.errored "boom") :=
  ⟨by decide,
   (stream_error_after_fragments [ChunkShape.deltaContent (some "Hello")] "boom" (by decide)).1,
   (stream_error_after_fragments [ChunkShape.deltaContent (some "Hello")] "boom" (by decide)).2.1⟩

/-- C7: when the upstream stream completes normally, the generator emits one
delta frame per fragment whose normalized text is non-empty, carrying the
fragments in arrival order (empty fragments produce no frame), followed by
exactly one `{done: true}` frame with nothing after it. -/
theorem stream_success_frames (chunks : List ChunkShape) :
    event_generator chunks StreamOutcome.completed =
      ((chunks.map extractPiece).filter (fun s => s ≠ "")).map Frame.delta ++ [Frame.done] ∧
    (event_generator chunks StreamOutcome.completed).count Frame.done = 1 ∧
    (event_generator chunks StreamOutcome.completed).getLast? = some Frame.done := by
  refine ⟨?_, ?_, ?_⟩
  · rw [show event_generator chunks StreamOutcome.completed =
        deltaFrames chunks ++ [Frame.done] from rfl, deltaFrames_eq]
  · rw [show event_generator chunks StreamOutcome.completed =
        deltaFrames chunks ++ [Frame.done] from rfl, List.count_append]
    have h0 : (deltaFrames chunks).count Frame.done = 0 := by
      rw [List.count_eq_zero]
      intro hmem
      obtain ⟨s, hs⟩ := mem_deltaFrames hmem
      exact Frame.noConfusion hs
    simp [h0]
  · rw [show event_generator chunks StreamOutcome.completed =
        deltaFrames chunks ++ [Frame.done] from rfl]
    simp

set_option maxRecDepth 100000 in
/-- C8: for every mode in the registry, compiling the prompt with no
personalization yields a non-empty string that contains that mode's base
instruction template exactly once. -/
theorem compile_contains_base_once (mode : String) (h : mode ∈ modeKeys) :
    build_system_prompt mode none ≠ "" ∧
    countOcc (baseFor mode).data (build_system_prompt mode none).data = 1 := by
  simp only [modeKeys, MODE_DEFINITIONS, List.map_cons, List.map_nil, List.mem_cons,
    List.not_mem_nil, or_false] at h
  rcases h with rfl | rfl | rfl | rfl <;> exact ⟨by decide, by decide⟩

/-- Witness for `compile_contains_base_once` at the narrative mode. -/
theorem compile_contains_base_once_witness :
    "narrative" ∈ modeKeys ∧
    (build_system_prompt "narrative" none ≠ "" ∧
     countOcc (baseFor "narrative").data (build_system_prompt "narrative" none).data = 1) :=
  ⟨by decide, compile_contains_base_once "narrative" (by decide)⟩

/-- C9 counterexample: a personalization whose `tone` field is present but
empty gets no tone clause at all — the compiled prompt equals the one
compiled with no personalization — contradicting the claim that a clause is
appended for each present field. -/
theorem present_empty_tone_adds_no_clause :
    ({ tone := some "" } : Personalization).tone ≠ none ∧
    build_system_prompt "narrative" (some { tone := some "" }) =
      build_system_prompt "narrative" none :=
  ⟨by decide, rfl⟩

/-- C9 (amended): for every mode and personalization record, the compiled
prompt is the mode's base template, followed — in the fixed order tone,
setting, characters, length, choices, extra_instructions — by one clause per
present-and-truthy field (non-empty string, non-zero integer) embedding the
field's value verbatim, and it ends with the fixed closing sentence; as an
equation between pure functions this also states that identical inputs
always yield the identical string. -/
theorem compile_clause_order (mode : String) (p : Personalization) :
    build_system_prompt mode (some p) =
      baseFor mode
      ++ optClause (pyTruthyStr p.tone) ("Tone: " ++ p.tone.getD "" ++ ".")
      ++ optClause (pyTruthyStr p.setting) ("Setting: " ++ p.setting.getD "" ++ ".")
      ++ optClause (pyTruthyInt p.characters)
           ("Use approximately " ++ toString (p.characters.getD 0) ++ " characters.")
      ++ optClause (pyTruthyStr p.length) ("Target length: " ++ p.length.getD "" ++ ".")
      ++ optClause (pyTruthyInt p.choices)
           ("Interactive choices: " ++ toString (p.choices.getD 0) ++ ".")
      ++ optClause (pyTruthyStr p.extra_instructions)
           ("Extra: " ++ p.extra_instructions.getD "")
      ++ " " ++ closingSentence := by
  by_cases h1 : pyTruthyStr p.tone <;>
  by_cases h2 : pyTruthyStr p.setting <;>
  by_cases h3 : pyTruthyInt p.characters <;>
  by_cases h4 : pyTruthyStr p.length <;>
  by_cases h5 : pyTruthyInt p.choices <;>
  by_cases h6 : pyTruthyStr p.extra_instructions <;>
  simp only [build_system_prompt, optClause, h1, h2, h3, h4, h5, h6,
    eq_self_iff_true, Bool.false_eq_true, if_true, if_false, ite_true, ite_false,
    List.cons_append, List.nil_append, joinSpace,
    String.append_assoc, String.append_empty, String.empty_append]

/-- C10: a string personalization field (tone, setting, length or
extra_instructions) that is present but equal to the empty string contributes
no clause: the compiled prompt is identical to the one compiled with that
field absent. -/
theorem empty_string_fields_add_no_clause (mode : String) (p : Personalization) :
    build_system_prompt mode (some { p with tone := some "" }) =
      build_system_prompt mode (some { p with tone := none }) ∧
    build_system_prompt mode (some { p with setting := some "" }) =
      build_system_prompt mode (some { p with setting := none }) ∧
    build_system_prompt mode (some { p with length := some "" }) =
      build_system_prompt mode (some { p with length := none }) ∧
    build_system_prompt mode (some { p with extra_instructions := some "" }) =
      build_system_prompt mode (some { p with extra_instructions := none }) :=
  ⟨rfl, rfl, rfl, rfl⟩

end Aidanna
